import Mathlib

/-
Verification development for the source-site filtering engine of
openquake/hazardlib/calc/filters.py.

Shallow embedding conventions:
  - longitudes, latitudes, magnitudes and distances are rationals;
  - Python dictionaries are association lists with unique keys, looked up
    with List.lookup;
  - a Python exception is a PyErr value (type name, message, traceback id)
    and fallible code returns Except PyErr;
  - a generator is a function returning the list of yielded pairs together
    with the exception, if any, that interrupted the iteration;
  - collaborator objects that live outside filters.py (the rtree index,
    fix_lons_idl, FilteredSiteCollection, the sources' own geometry) are
    modelled from the spec, as marked in the individual doc comments.
-/

/-- A Python exception: its type name, its message, and an abstract
traceback identifier (fresh raises use traceback 0). -/
structure PyErr where
  etype : String
  msg : String
  tb : Nat
deriving DecidableEq, Repr

/-- A geographic bounding box (min_lon, min_lat, max_lon, max_lat),
as returned by Source.get_bounding_box and SourceFilter.get_affected_box. -/
structure Box where
  min_lon : ℚ
  min_lat : ℚ
  max_lon : ℚ
  max_lat : ℚ
deriving DecidableEq, Repr

/-- A site collection: the parallel arrays sitecol.sids, sitecol.lons,
sitecol.lats of the SiteCollection object. -/
structure SiteCollection where
  sids : List Nat
  lons : List ℚ
  lats : List ℚ
deriving DecidableEq, Repr

/-- Modelled from the spec: a FilteredSiteCollection is a subset of site
identifiers plus a `complete` back-reference to the unfiltered original
collection (spec section 3, SiteCollection). -/
structure FilteredSiteCollection where
  sids : List Nat
  complete : SiteCollection
deriving DecidableEq, Repr

/-- Modelled from the spec: a complete SiteCollection viewed as a filtered
collection whose `complete` back-reference is itself (spec section 3:
every filtered subset's `complete` pointer refers to the original). -/
def SiteCollection.asFiltered (sc : SiteCollection) : FilteredSiteCollection :=
  ⟨sc.sids, sc⟩

/-- A seismic source, at the interface this engine consumes (spec section 6):
its identifier, its tectonic region type, its `get_bounding_box(maxdist)`
procedure, its `filter_sites_by_distance_to_source(maxdist, sites)`
procedure (modelled from the spec as an abstract source-owned function that
may raise, returning None when no site is in range), and the mutable
`nsites` attribute. -/
structure Source where
  source_id : String
  tectonic_region_type : String
  bounding_box : ℚ → Box
  filterByDist : ℚ → FilteredSiteCollection → Except PyErr (Option FilteredSiteCollection)
  nsites : Nat

/-- A rupture, at the interface this engine consumes (spec section 6):
tectonic region type, magnitude, and its distance to each site of the mesh
(the surface-geometry distance procedures dispatched by get_distances are
external collaborators; they are modelled from the spec as an abstract
per-site distance function). -/
structure Rupture where
  tectonic_region_type : String
  mag : ℚ
  dist : Nat → ℚ

/-- A value stored in the IntegrationDistance dictionary after
construction: either a scalar maximum distance or a list of
(magnitude, distance) pairs. -/
inductive TabVal where
  | scalar (d : ℚ)
  | pairs (l : List (ℚ × ℚ))
deriving DecidableEq, Repr

/-- Lexicographic order on (magnitude, distance) pairs: the order used by
Python's list.sort() on 2-tuples. -/
def pairLe (a b : ℚ × ℚ) : Prop :=
  a.1 < b.1 ∨ (a.1 = b.1 ∧ a.2 ≤ b.2)

instance : DecidableRel pairLe := fun a b => by
  unfold pairLe; exact inferInstance

instance : IsTotal (ℚ × ℚ) pairLe := ⟨by
  intro a b
  rcases lt_trichotomy a.1 b.1 with h | h | h
  · exact Or.inl (Or.inl h)
  · rcases le_total a.2 b.2 with h2 | h2
    · exact Or.inl (Or.inr ⟨h, h2⟩)
    · exact Or.inr (Or.inr ⟨h.symm, h2⟩)
  · exact Or.inr (Or.inl h)⟩

instance : IsTrans (ℚ × ℚ) pairLe := ⟨by
  intro a b c hab hbc
  rcases hab with h | ⟨he, h2⟩
  · rcases hbc with h' | ⟨he', _⟩
    · exact Or.inl (h.trans h')
    · exact Or.inl (he' ▸ h)
  · rcases hbc with h' | ⟨he', h2'⟩
    · exact Or.inl (he ▸ h')
    · exact Or.inr ⟨he.trans he', h2.trans h2'⟩⟩

/-- value.sort() in IntegrationDistance.__init__: Python's stable sort of
the (magnitude, distance) pairs in lexicographic order.  Lexicographic
order on pairs is a total order, so any comparison sort produces the same
list; insertion sort is used here. -/
def sortPairs (l : List (ℚ × ℚ)) : List (ℚ × ℚ) :=
  List.insertionSort pairLe l

/-- sorted(...) on site identifiers: ascending sort of a list of naturals. -/
def sortNat (l : List Nat) : List Nat :=
  List.insertionSort (· ≤ ·) l

/-- The per-value normalization of IntegrationDistance.__init__: a list
value is sorted by magnitude, a scalar value is kept (the float coercion
is the identity here). -/
def sortVal : TabVal → TabVal
  | .scalar d => .scalar d
  | .pairs l => .pairs (sortPairs l)

/-- IntegrationDistance.__init__: every value of the dictionary is
normalized with sortVal, keys untouched. -/
def IntegrationDistance.init (dic : List (String × TabVal)) : List (String × TabVal) :=
  dic.map fun kv => (kv.1, sortVal kv.2)

/-- The KeyError raised when neither the key nor the distinguished
fallback key is present in the dictionary. -/
def keyErrorDefault : PyErr := ⟨"KeyError", "default", 0⟩

/-- getdefault(dic_with_default, key): the value associated to the key, or
to the distinguished fallback key, raising KeyError when both are absent. -/
def getdefault (dic : List (String × TabVal)) (key : String) : Except PyErr TabVal :=
  match dic.lookup key with
  | some v => .ok v
  | none =>
    match dic.lookup ("default") with
    | some v => .ok v
    | none => .error keyErrorDefault

/-- The quantity p.2 + (q.2 - p.2) * (x - p.1) / (q.1 - p.1): the line
through the points p and q, evaluated at x. -/
def interpSeg (p q : ℚ × ℚ) (x : ℚ) : ℚ :=
  p.2 + (q.2 - p.2) * (x - p.1) / (q.1 - p.1)

/-- scipy.interpolate.interp1d(mags, dists, bounds_error=False,
fill_value=(an out-of-range policy of linear extension)), as used by
IntegrationDistance.__call__: piecewise-linear interpolation over the
sorted breakpoints, with arguments below the first breakpoint extended
along the first segment and arguments above the last breakpoint extended
along the last segment.  Lists of fewer than two points are rejected
before this function is reached. -/
def lininterp : List (ℚ × ℚ) → ℚ → ℚ
  | [], _ => 0
  | [p], _ => p.2
  | p :: q :: rest, x =>
    if x ≤ q.1 ∨ rest = [] then interpSeg p q x
    else lininterp (q :: rest) x

/-- IntegrationDistance.__call__(trt, mag): resolve the value with
getdefault; a scalar is returned for every magnitude; for a pair list with
no magnitude the distance of the last (largest-magnitude) pair is
returned (value[-1][1], raising IndexError on an empty list); for a pair
list with a magnitude the interpolator is evaluated (its construction
rejects lists of fewer than two points with ValueError). -/
def IntegrationDistance.call (dic : List (String × TabVal)) (trt : String)
    (mag : Option ℚ) : Except PyErr ℚ :=
  match getdefault dic trt with
  | .error e => .error e
  | .ok (.scalar d) => .ok d
  | .ok (.pairs l) =>
    match mag with
    | none =>
      match l.getLast? with
      | some p => .ok p.2
      | none => .error ⟨"IndexError", "list index out of range", 0⟩
    | some m =>
      if l.length < 2 then
        .error ⟨"ValueError", "x and y arrays must have at least 2 entries", 0⟩
      else .ok (lininterp l m)

/-- The FarAwayRupture exception raised by get_closest. -/
def farAwayRupture : PyErr := ⟨"FarAwayRupture", "", 0⟩

/-- Modelled from the spec: SiteCollection.filter(mask) and numpy boolean
indexing distances[mask] restrict a sequence to the entries whose mask
bit is set (spec section 3, SiteCollection.filter). -/
def maskFilter {α : Type} (l : List α) (mask : List Bool) : List α :=
  (l.zip mask).filterMap fun x => if x.2 then some x.1 else none

/-- IntegrationDistance.get_closest(sites, rupture): compute the distances
from the rupture to the mesh, return all sites and distances when the
dictionary is empty, otherwise keep the sites within the threshold at the
rupture's tectonic region type and magnitude, raising FarAwayRupture when
the mask is everywhere false.  Threshold-lookup failures propagate. -/
def IntegrationDistance.get_closest (dic : List (String × TabVal))
    (sites : FilteredSiteCollection) (r : Rupture) :
    Except PyErr (FilteredSiteCollection × List ℚ) :=
  let distances := sites.sids.map r.dist
  if dic.isEmpty then .ok (sites, distances)
  else
    match IntegrationDistance.call dic r.tectonic_region_type (some r.mag) with
    | .error e => .error e
    | .ok thr =>
      let mask := distances.map fun d => decide (d ≤ thr)
      if mask.any id then
        .ok (⟨maskFilter sites.sids mask, sites.complete⟩, maskFilter distances mask)
      else .error farAwayRupture

/-- Modelled from the spec: the date-line correction of fix_lons_idl maps
a longitude in (-180, 180] to [0, 360) when the correction is active, so
that boxes and points near the antimeridian become contiguous (spec
glossary, international date line correction). -/
def fixLon (idl : Bool) (lon : ℚ) : ℚ :=
  if idl ∧ lon < 0 then lon + 360 else lon

/-- Modelled from the spec: the rtree spatial index stores each site's
(corrected longitude, latitude) as a degenerate box keyed by its
identifier, and an intersection query returns the identifiers of the
sites contained in the query box (spec section 3, SpatialIndex). -/
def indexIntersection (sc : SiteCollection) (idl : Bool) (b : Box) : List Nat :=
  (sc.sids.zip (sc.lons.zip sc.lats)).filterMap fun sll =>
    let x := fixLon idl sll.2.1
    let y := sll.2.2
    if b.min_lon ≤ x ∧ x ≤ b.max_lon ∧ b.min_lat ≤ y ∧ y ≤ b.max_lat then
      some sll.1
    else none

/-- The post-construction state of a SourceFilter: the wrapped integration
distance dictionary, the site collection (or None), and the use_rtree and
idl flags set by __init__.  The spatial index itself is recomputed from
the site collection and the idl flag at query time. -/
structure SourceFilter where
  integration_distance : List (String × TabVal)
  sitecol : Option SiteCollection
  use_rtree : Bool
  idl : Bool

/-- SourceFilter.get_affected_box(src): the enlarged bounding box of a
source, remapped by the four-way case split when the idl flag is set.
The lookup self.integration_distance[trt] is __call__ with no magnitude
and may raise; when the idl flag is set and no branch fires (a boundary
longitude equal to zero) the Python function falls through and returns
None. -/
def SourceFilter.get_affected_box (sf : SourceFilter) (src : Source) :
    Except PyErr (Option Box) :=
  match IntegrationDistance.call sf.integration_distance src.tectonic_region_type none with
  | .error e => .error e
  | .ok maxdist =>
    let b := src.bounding_box maxdist
    if sf.idl then
      if b.min_lon < 0 ∧ 0 < b.max_lon then
        .ok (some ⟨b.max_lon, b.min_lat, b.min_lon + 360, b.max_lat⟩)
      else if b.min_lon < 0 ∧ b.max_lon < 0 then
        .ok (some ⟨b.min_lon + 360, b.min_lat, b.max_lon + 360, b.max_lat⟩)
      else if 0 < b.min_lon ∧ 0 < b.max_lon then
        .ok (some ⟨b.min_lon, b.min_lat, b.max_lon, b.max_lat⟩)
      else if 0 < b.min_lon ∧ b.max_lon < 0 then
        .ok (some ⟨b.max_lon + 360, b.min_lat, b.min_lon, b.max_lat⟩)
      else .ok none
    else .ok (some b)

/-- The rtree query of SourceFilter.__call__: numpy.array(sorted(
self.index.intersection(box))).  Querying with the None produced by a
fallen-through get_affected_box raises a TypeError. -/
def SourceFilter.rtreeSids (sf : SourceFilter) (sc : SiteCollection) (src : Source) :
    Except PyErr (List Nat) :=
  match sf.get_affected_box src with
  | .error e => .error e
  | .ok none => .error ⟨"TypeError", "argument of type NoneType is not iterable", 0⟩
  | .ok (some box) => .ok (sortNat (indexIntersection sc sf.idl box))

/-- The message built by the context manager: the source identifier
prepended to the original error message. -/
def contextMsg (srcId : String) (emsg : String) : String :=
  "An error occurred with source id=" ++ srcId ++ ". Error: " ++ emsg

/-- context(src): the context manager wrapping the per-source filtering
call.  A successful body passes through; a raised exception is re-raised
(modelled from the spec: raise_ re-raises with the given type, the
enriched message, and the original traceback) with the same exception
type, the source identifier prepended to the message, and the same
traceback. -/
def context {α : Type} (src : Source) (r : Except PyErr α) : Except PyErr α :=
  match r with
  | .ok a => .ok a
  | .error e => .error ⟨e.etype, contextMsg src.source_id e.msg, e.tb⟩

/-- The two non-rtree branches of the loop body of SourceFilter.__call__:
with an empty integration distance dictionary the source is yielded with
the sites unchanged; otherwise the maximum distance at the source's
tectonic region type is looked up, the source's own distance filtering is
run inside the context manager, and the source is yielded with nsites set
exactly when a subset is returned. -/
def SourceFilter.fallbackStep (sf : SourceFilter) (sites : FilteredSiteCollection)
    (src : Source) : Except PyErr (Option (Source × FilteredSiteCollection)) :=
  if sf.integration_distance.isEmpty then .ok (some (src, sites))
  else
    match IntegrationDistance.call sf.integration_distance src.tectonic_region_type none with
    | .error e => .error e
    | .ok maxdist =>
      match context src (src.filterByDist maxdist sites) with
      | .error e => .error e
      | .ok none => .ok none
      | .ok (some s) => .ok (some ({ src with nsites := s.sids.length }, s))

/-- The loop body of SourceFilter.__call__ for one source: the rtree
branch (query the index with the affected box, sort the identifiers, and
yield with nsites set exactly when the list is non-empty, the subset
being a FilteredSiteCollection over sites.complete), and otherwise the
non-rtree branches. -/
def SourceFilter.step (sf : SourceFilter) (sc : SiteCollection)
    (sites : FilteredSiteCollection) (src : Source) :
    Except PyErr (Option (Source × FilteredSiteCollection)) :=
  if sf.use_rtree then
    match sf.rtreeSids sc src with
    | .error e => .error e
    | .ok sids =>
      if sids.length ≠ 0 then
        .ok (some ({ src with nsites := sids.length }, ⟨sids, sites.complete⟩))
      else .ok none
  else sf.fallbackStep sites src

/-- The loop of SourceFilter.__call__ over the sources: the pairs yielded
before the generator is exhausted or interrupted, together with the
interrupting exception, if any. -/
def SourceFilter.callFrom (sf : SourceFilter) (sc : SiteCollection)
    (sites : FilteredSiteCollection) :
    List Source → List (Source × FilteredSiteCollection) × Option PyErr
  | [] => ([], none)
  | src :: rest =>
    match sf.step sc sites src with
    | .error e => ([], some e)
    | .ok none => sf.callFrom sc sites rest
    | .ok (some p) =>
      let res := sf.callFrom sc sites rest
      (p :: res.1, res.2)

/-- SourceFilter.__call__(sources, sites=None): with a None site
collection every source is yielded with the caller's sites argument
unchanged (None included); otherwise the sites argument defaults to the
engine's own site collection and the loop body runs per source, in the
input order. -/
def SourceFilter.call (sf : SourceFilter) (sources : List Source)
    (sitesArg : Option FilteredSiteCollection) :
    List (Source × Option FilteredSiteCollection) × Option PyErr :=
  match sf.sitecol with
  | none => (sources.map fun s => (s, sitesArg), none)
  | some sc =>
    let sites := sitesArg.getD sc.asFiltered
    let res := sf.callFrom sc sites sources
    (res.1.map fun p => (p.1, some p.2), res.2)

/-- SourceFilter.__getstate__ followed by unpickling: the receiving copy
keeps the integration distance dictionary and the site collection
verbatim, has use_rtree forced off, and has no index and no idl attribute
(the idl field is reset here; it is only ever read under use_rtree). -/
def SourceFilter.getstate (sf : SourceFilter) : SourceFilter :=
  { integration_distance := sf.integration_distance
    sitecol := sf.sitecol
    use_rtree := false
    idl := false }

/-- The geometric-fallback iteration run directly: the loop of
SourceFilter.__call__ with the rtree branch never taken.  This is the
path the spec names for the receiving side of a cross-process
transmission. -/
def SourceFilter.fallbackCallFrom (sf : SourceFilter)
    (sites : FilteredSiteCollection) :
    List Source → List (Source × FilteredSiteCollection) × Option PyErr
  | [] => ([], none)
  | src :: rest =>
    match sf.fallbackStep sites src with
    | .error e => ([], some e)
    | .ok none => sf.fallbackCallFrom sites rest
    | .ok (some p) =>
      let res := sf.fallbackCallFrom sites rest
      (p :: res.1, res.2)

/-- The geometric-fallback path of SourceFilter.__call__ run directly on
an engine: identical dispatch on the site collection, with every source
handled by the non-rtree branches. -/
def SourceFilter.fallbackCall (sf : SourceFilter) (sources : List Source)
    (sitesArg : Option FilteredSiteCollection) :
    List (Source × Option FilteredSiteCollection) × Option PyErr :=
  match sf.sitecol with
  | none => (sources.map fun s => (s, sitesArg), none)
  | some sc =>
    let sites := sitesArg.getD sc.asFiltered
    let res := sf.fallbackCallFrom sites sources
    (res.1.map fun p => (p.1, some p.2), res.2)

/-
Concrete instances used to evaluate the definitions on explicit inputs.
-/

/-- A one-entry distance table: every tectonic region type resolves to a
scalar 100 km threshold. -/
def dicScalar : List (String × TabVal) := [("default", TabVal.scalar 100)]

/-- Two sites: identifier 0 at (0, 0) and identifier 1 at (1, 0). -/
def scW : SiteCollection := ⟨[0, 1], [0, 1], [0, 0]⟩

/-- A strict subset of scW holding only the site with identifier 0. -/
def fscSub : FilteredSiteCollection := ⟨[0], scW⟩

/-- A source whose enlarged bounding box covers both sites of scW and
whose own distance filter returns the sites it is given. -/
def srcA : Source :=
  ⟨"A", "default", fun _ => ⟨-1, -1, 2, 1⟩, fun _ s => .ok (some s), 0⟩

/-- A source whose enlarged bounding box misses every site of scW. -/
def srcB : Source :=
  ⟨"B", "default", fun _ => ⟨50, 50, 60, 60⟩, fun _ s => .ok (some s), 0⟩

/-- An index-backed SourceFilter over scW with no date-line correction. -/
def sfIdx : SourceFilter := ⟨dicScalar, some scW, true, false⟩

/-- The same engine with index filtering off: the geometric fallback. -/
def sfNoIdx : SourceFilter := ⟨dicScalar, some scW, false, false⟩

/-- An engine with a None site collection: the pass-through mode. -/
def sfPass : SourceFilter := ⟨dicScalar, none, false, false⟩

/-- The sorted identifier lists the index returns for srcA and srcB. -/
def qW (src : Source) : List Nat :=
  if src.source_id = ("A") then [0, 1] else []

/-- A bounding box straddling zero with opposite signs. -/
def boxC1 : Box := ⟨-5, -1, 5, 1⟩

/-- An engine whose idl flag is set. -/
def sfC1 : SourceFilter := ⟨dicScalar, none, false, true⟩

/-- A source whose enlarged bounding box is boxC1. -/
def srcC1 : Source := ⟨"w1", "default", fun _ => boxC1, fun _ s => .ok (some s), 0⟩

/-- A bounding box whose west edge sits exactly at longitude zero. -/
def boxC9 : Box := ⟨0, -1, 5, 1⟩

/-- An index-backed engine with the idl flag set. -/
def sfC9 : SourceFilter := ⟨dicScalar, some scW, true, true⟩

/-- A source whose enlarged bounding box is boxC9. -/
def srcC9 : Source := ⟨"w9", "default", fun _ => boxC9, fun _ s => .ok (some s), 0⟩

/-- One site at longitude -179.9, latitude 0, identifier 0. -/
def scC2 : SiteCollection := ⟨[0], [(-1799 : ℚ) / 10], [0]⟩

/-- A source whose enlarged bounding box is (170, -10, -170, 10): west
edge 170, east edge -170, spanning the antimeridian. -/
def srcC2 : Source :=
  ⟨"C2", "default", fun _ => ⟨170, -10, -170, 10⟩, fun _ s => .ok (some s), 0⟩

/-- The same physical box encoded in naive min/max order
(-170, -10, 170, 10). -/
def srcC2b : Source :=
  ⟨"C2b", "default", fun _ => ⟨-170, -10, 170, 10⟩, fun _ s => .ok (some s), 0⟩

/-- An index-backed engine over scC2 with the idl flag set and a 200 km
scalar threshold. -/
def sfC2 : SourceFilter := ⟨[("default", TabVal.scalar 200)], some scC2, true, true⟩

/-- A source whose own distance filter raises a ValueError carrying
traceback identifier 7. -/
def srcC8 : Source :=
  ⟨"C8", "default", fun _ => boxC1, fun _ _ => .error ⟨"ValueError", "bad geometry", 7⟩, 0⟩

/-- A rupture 50 km from site 0 and 500 km from every other site. -/
def rupW : Rupture := ⟨"default", 5, fun sid => if sid = 0 then 50 else 500⟩

/-- A rupture 500 km from every site. -/
def rupFar : Rupture := ⟨"default", 5, fun _ => 500⟩

/-- A table whose pair list is given unsorted. -/
def dicC5 : List (String × TabVal) := [("default", TabVal.pairs [(5, 100), (3, 30)])]

/-- A two-point magnitude-distance table. -/
def dicC6 : List (String × TabVal) := [("default", TabVal.pairs [(1, 10), (2, 20)])]

/-
Theorems.
-/

theorem get_affected_box_eq (sf : SourceFilter) (src : Source) (maxdist : ℚ) (b : Box)
    (hmd : IntegrationDistance.call sf.integration_distance
      src.tectonic_region_type none = .ok maxdist)
    (hb : src.bounding_box maxdist = b) :
    sf.get_affected_box src =
      (if sf.idl then
        if b.min_lon < 0 ∧ 0 < b.max_lon then
          .ok (some ⟨b.max_lon, b.min_lat, b.min_lon + 360, b.max_lat⟩)
        else if b.min_lon < 0 ∧ b.max_lon < 0 then
          .ok (some ⟨b.min_lon + 360, b.min_lat, b.max_lon + 360, b.max_lat⟩)
        else if 0 < b.min_lon ∧ 0 < b.max_lon then
          .ok (some ⟨b.min_lon, b.min_lat, b.max_lon, b.max_lat⟩)
        else if 0 < b.min_lon ∧ b.max_lon < 0 then
          .ok (some ⟨b.max_lon + 360, b.min_lat, b.min_lon, b.max_lat⟩)
        else .ok none
      else .ok (some b)) := by
  simp only [SourceFilter.get_affected_box, hmd, hb]

/-- Claim C1: with the idl flag set, get_affected_box remaps the enlarged
bounding box by exactly the four-way case split on the signs of min_lon
and max_lon; with the idl flag unset the box is returned unchanged. -/
theorem claim_C1 (sf : SourceFilter) (src : Source) (maxdist : ℚ) (b : Box)
    (hmd : IntegrationDistance.call sf.integration_distance
      src.tectonic_region_type none = .ok maxdist)
    (hb : src.bounding_box maxdist = b) :
    (sf.idl = true →
      (b.min_lon < 0 ∧ 0 < b.max_lon →
        sf.get_affected_box src =
          .ok (some ⟨b.max_lon, b.min_lat, b.min_lon + 360, b.max_lat⟩)) ∧
      (b.min_lon < 0 ∧ b.max_lon < 0 →
        sf.get_affected_box src =
          .ok (some ⟨b.min_lon + 360, b.min_lat, b.max_lon + 360, b.max_lat⟩)) ∧
      (0 < b.min_lon ∧ 0 < b.max_lon →
        sf.get_affected_box src = .ok (some b)) ∧
      (0 < b.min_lon ∧ b.max_lon < 0 →
        sf.get_affected_box src =
          .ok (some ⟨b.max_lon + 360, b.min_lat, b.min_lon, b.max_lat⟩))) ∧
    (sf.idl = false → sf.get_affected_box src = .ok (some b)) := by
  have key := get_affected_box_eq sf src maxdist b hmd hb
  constructor
  · intro hidl
    rw [hidl] at key
    simp only [if_true] at key
    refine ⟨fun h => ?_, fun h => ?_, fun h => ?_, fun h => ?_⟩
    · rw [key, if_pos h]
    · have n1 : ¬(b.min_lon < 0 ∧ 0 < b.max_lon) := by
        rintro ⟨h1, h2⟩; linarith [h.1, h.2]
      rw [key, if_neg n1, if_pos h]
    · have n1 : ¬(b.min_lon < 0 ∧ 0 < b.max_lon) := by
        rintro ⟨h1, h2⟩; linarith [h.1, h.2]
      have n2 : ¬(b.min_lon < 0 ∧ b.max_lon < 0) := by
        rintro ⟨h1, h2⟩; linarith [h.1, h.2]
      rw [key, if_neg n1, if_neg n2, if_pos h]
    · have n1 : ¬(b.min_lon < 0 ∧ 0 < b.max_lon) := by
        rintro ⟨h1, h2⟩; linarith [h.1, h.2]
      have n2 : ¬(b.min_lon < 0 ∧ b.max_lon < 0) := by
        rintro ⟨h1, h2⟩; linarith [h.1, h.2]
      have n3 : ¬(0 < b.min_lon ∧ 0 < b.max_lon) := by
        rintro ⟨h1, h2⟩; linarith [h.1, h.2]
      rw [key, if_neg n1, if_neg n2, if_neg n3, if_pos h]
  · intro hidl
    rw [hidl] at key
    simpa using key

/-- Witness for claim C1: the first branch evaluated on the concrete box
(-5, -1, 5, 1) under an engine with the idl flag set. -/
theorem claim_C1_witness :
    sfC1.get_affected_box srcC1 = .ok (some ⟨5, -1, 355, 1⟩) := by
  have h := ((claim_C1 sfC1 srcC1 100 boxC1 rfl rfl).1 rfl).1 (by decide)
  have e : (-5 : ℚ) + 360 = 355 := by norm_num
  simpa [boxC1, e] using h

/-- Claim C9: with the idl flag set and a boundary longitude equal to
zero, no branch of the four-way case split fires and get_affected_box
returns None; the subsequent index query of the rtree loop body then
raises a TypeError instead of yielding or skipping the source. -/
theorem claim_C9 (sf : SourceFilter) (src : Source) (maxdist : ℚ) (b : Box)
    (hmd : IntegrationDistance.call sf.integration_distance
      src.tectonic_region_type none = .ok maxdist)
    (hb : src.bounding_box maxdist = b)
    (hidl : sf.idl = true)
    (h0 : b.min_lon = 0 ∨ b.max_lon = 0) :
    sf.get_affected_box src = .ok none ∧
    (sf.use_rtree = true → ∀ (sc : SiteCollection) (sites : FilteredSiteCollection),
      sf.step sc sites src =
        .error ⟨"TypeError", "argument of type NoneType is not iterable", 0⟩) := by
  have key := get_affected_box_eq sf src maxdist b hmd hb
  rw [hidl] at key
  simp only [if_true] at key
  have hbox : sf.get_affected_box src = .ok none := by
    rcases h0 with h | h
    · have n1 : ¬(b.min_lon < 0 ∧ 0 < b.max_lon) := by
        rintro ⟨h1, _⟩; rw [h] at h1; exact lt_irrefl 0 h1
      have n2 : ¬(b.min_lon < 0 ∧ b.max_lon < 0) := by
        rintro ⟨h1, _⟩; rw [h] at h1; exact lt_irrefl 0 h1
      have n3 : ¬(0 < b.min_lon ∧ 0 < b.max_lon) := by
        rintro ⟨h1, _⟩; rw [h] at h1; exact lt_irrefl 0 h1
      have n4 : ¬(0 < b.min_lon ∧ b.max_lon < 0) := by
        rintro ⟨h1, _⟩; rw [h] at h1; exact lt_irrefl 0 h1
      rw [key, if_neg n1, if_neg n2, if_neg n3, if_neg n4]
    · have n1 : ¬(b.min_lon < 0 ∧ 0 < b.max_lon) := by
        rintro ⟨_, h2⟩; rw [h] at h2; exact lt_irrefl 0 h2
      have n2 : ¬(b.min_lon < 0 ∧ b.max_lon < 0) := by
        rintro ⟨_, h2⟩; rw [h] at h2; exact lt_irrefl 0 h2
      have n3 : ¬(0 < b.min_lon ∧ 0 < b.max_lon) := by
        rintro ⟨_, h2⟩; rw [h] at h2; exact lt_irrefl 0 h2
      have n4 : ¬(0 < b.min_lon ∧ b.max_lon < 0) := by
        rintro ⟨_, h2⟩; rw [h] at h2; exact lt_irrefl 0 h2
      rw [key, if_neg n1, if_neg n2, if_neg n3, if_neg n4]
  refine ⟨hbox, fun hrt sc sites => ?_⟩
  simp only [SourceFilter.step, hrt, if_true, SourceFilter.rtreeSids, hbox]

/-- Witness for claim C9: evaluation on the concrete box (0, -1, 5, 1)
whose west edge sits at longitude zero. -/
theorem claim_C9_witness :
    sfC9.get_affected_box srcC9 = .ok none ∧
    sfC9.step scW scW.asFiltered srcC9 =
      .error ⟨"TypeError", "argument of type NoneType is not iterable", 0⟩ := by
  have h := claim_C9 sfC9 srcC9 100 boxC9 rfl rfl rfl (Or.inl rfl)
  exact ⟨h.1, h.2 rfl scW scW.asFiltered⟩

/-- Claim C2 is violated by the code: for the site at longitude -179.9
(corrected to 180.1) and the source box (170, -10, -170, 10), the fourth
branch of the IDL remap produces the inverted box (190, -10, 170, 10),
whose index intersection contains no site, so the source is skipped and
the site is dropped; the same physical box encoded as (-170, -10, 170,
10) goes through the first branch, produces (170, -10, 190, 10), and
retains the site. -/
theorem claim_C2_eval :
    sfC2.get_affected_box srcC2 = .ok (some ⟨190, -10, 170, 10⟩) ∧
    sfC2.call [srcC2] none = ([], none) ∧
    sfC2.get_affected_box srcC2b = .ok (some ⟨170, -10, 190, 10⟩) ∧
    sfC2.call [srcC2b] none =
      ([({ srcC2b with nsites := 1 }, some ⟨[0], scC2⟩)], none) := by
  have hfix : ((-1799 : ℚ) / 10 < 0) := by norm_num
  refine ⟨?_, ?_, ?_, ?_⟩
  · norm_num [sfC2, srcC2, SourceFilter.get_affected_box, IntegrationDistance.call, getdefault]
  · norm_num [sfC2, srcC2, scC2, SourceFilter.call, SourceFilter.callFrom, SourceFilter.step,
      SourceFilter.rtreeSids, SourceFilter.get_affected_box, IntegrationDistance.call, getdefault,
      indexIntersection, fixLon, sortNat]
  · norm_num [sfC2, srcC2b, SourceFilter.get_affected_box, IntegrationDistance.call, getdefault]
  · norm_num [sfC2, srcC2b, scC2, SourceFilter.call, SourceFilter.callFrom, SourceFilter.step,
      SourceFilter.rtreeSids, SourceFilter.get_affected_box, IntegrationDistance.call, getdefault,
      indexIntersection, fixLon, sortNat, SiteCollection.asFiltered,
      List.filterMap_cons, List.filterMap_nil, hfix, List.insertionSort, List.orderedInsert]

/-- Claim C10: with index filtering active the caller-supplied sites
argument is consulted only for its complete back-reference: filtering a
single covering source against the strict subset holding only site 0
yields the index-selected subset [0, 1], which contains site 1 even
though the supplied argument does not; the pass-through path (None site
collection) and the geometric-fallback path yield subsets honouring the
supplied argument. -/
theorem claim_C10 :
    (sfIdx.call [srcA] (some fscSub) =
      ([({ srcA with nsites := 2 }, some ⟨[0, 1], scW⟩)], none)) ∧
    ((1 : Nat) ∈ ([0, 1] : List Nat) ∧ (1 : Nat) ∉ fscSub.sids) ∧
    (sfPass.call [srcA] (some fscSub) = ([(srcA, some fscSub)], none)) ∧
    (sfNoIdx.call [srcA] (some fscSub) =
      ([({ srcA with nsites := 1 }, some fscSub)], none)) := by
  refine ⟨?_, ⟨by decide, by decide⟩, ?_, ?_⟩
  · norm_num [sfIdx, srcA, scW, fscSub, dicScalar, SourceFilter.call, SourceFilter.callFrom,
      SourceFilter.step, SourceFilter.rtreeSids, SourceFilter.get_affected_box,
      IntegrationDistance.call, getdefault, indexIntersection, fixLon, sortNat,
      List.filterMap_cons, List.filterMap_nil, List.insertionSort, List.orderedInsert]
  · norm_num [sfPass, SourceFilter.call]
  · norm_num [sfNoIdx, srcA, fscSub, scW, dicScalar, SourceFilter.call, SourceFilter.callFrom,
      SourceFilter.step, SourceFilter.fallbackStep, IntegrationDistance.call, getdefault,
      context, SiteCollection.asFiltered]

/-- Claim C7: serialization keeps the site collection and the
integration-distance table verbatim, forces use_rtree off and drops the
index; filtering with the deserialized copy coincides, on every source
sequence and sites argument, with the geometric-fallback path run
directly on the original engine. -/
theorem claim_C7 (sf : SourceFilter) :
    sf.getstate.sitecol = sf.sitecol ∧
    sf.getstate.integration_distance = sf.integration_distance ∧
    sf.getstate.use_rtree = false ∧
    ∀ (sources : List Source) (sitesArg : Option FilteredSiteCollection),
      sf.getstate.call sources sitesArg = sf.fallbackCall sources sitesArg := by
  refine ⟨rfl, rfl, rfl, fun sources sitesArg => ?_⟩
  have hfrom : ∀ (sc : SiteCollection) (sites : FilteredSiteCollection) (srcs : List Source),
      sf.getstate.callFrom sc sites srcs = sf.fallbackCallFrom sites srcs := by
    intro sc sites srcs
    induction srcs with
    | nil => rfl
    | cons s rest ih =>
      have hstep : sf.getstate.step sc sites s = sf.fallbackStep sites s := rfl
      simp only [SourceFilter.callFrom, SourceFilter.fallbackCallFrom, hstep, ih]
  have hsc : sf.getstate.sitecol = sf.sitecol := rfl
  simp only [SourceFilter.call, SourceFilter.fallbackCall, hsc]
  cases sf.sitecol with
  | none => rfl
  | some sc => simp only [hfrom]

/-- Claim C8: any error raised inside the geometric-fallback filtering of
a source is re-raised with the source identifier prepended to its
message, with the same exception type and the same traceback; the
wrapper never turns an error into a success and never changes the kind. -/
theorem claim_C8 (src : Source) :
    (∀ (α : Type) (r : Except PyErr α) (a : α), context src r = .ok a ↔ r = .ok a) ∧
    (∀ (α : Type) (r : Except PyErr α) (e : PyErr), r = .error e →
      context src r = .error ⟨e.etype, contextMsg src.source_id e.msg, e.tb⟩) ∧
    (∀ emsg : String, ∃ pre : String, contextMsg src.source_id emsg = pre ++ emsg) ∧
    (∀ (sf : SourceFilter) (sc : SiteCollection) (sites : FilteredSiteCollection)
        (maxdist : ℚ) (e : PyErr),
      sf.use_rtree = false →
      sf.integration_distance.isEmpty = false →
      IntegrationDistance.call sf.integration_distance src.tectonic_region_type none =
        .ok maxdist →
      src.filterByDist maxdist sites = .error e →
      sf.step sc sites src =
        .error ⟨e.etype, contextMsg src.source_id e.msg, e.tb⟩) := by
  refine ⟨?_, ?_, ?_, ?_⟩
  · intro α r a
    cases r with
    | ok b => simp [context]
    | error e => simp [context]
  · intro α r e he
    subst he
    rfl
  · intro emsg
    refine ⟨"An error occurred with source id=" ++ src.source_id ++ ". Error: ", ?_⟩
    simp only [contextMsg, String.append_assoc]
  · intro sf sc sites maxdist e hrt hne hcall hfil
    simp only [SourceFilter.step, hrt, Bool.false_eq_true, if_false,
      SourceFilter.fallbackStep, hne, hcall, hfil, context]

/-- Witness for claim C8: a source whose filter raises a ValueError with
traceback 7 under the geometric fallback of sfNoIdx. -/
theorem claim_C8_witness :
    sfNoIdx.step scW scW.asFiltered srcC8 =
      .error ⟨"ValueError",
        "An error occurred with source id=C8. Error: bad geometry", 7⟩ := by
  have h := (claim_C8 srcC8).2.2.2 sfNoIdx scW scW.asFiltered 100
    ⟨"ValueError", "bad geometry", 7⟩ rfl rfl rfl rfl
  exact h

theorem maskFilter_map {α : Type} (l : List α) (p : α → Bool) :
    maskFilter l (l.map p) = l.filter p := by
  induction l with
  | nil => rfl
  | cons a t ih =>
    simp only [maskFilter, List.map_cons, List.zip_cons_cons, List.filterMap_cons] at ih ⊢
    by_cases h : p a
    · simp [h, List.filter_cons, ih]
    · simp [h, List.filter_cons, ih]

/-- Claim C4: get_closest returns all sites and all computed distances
unconditionally when the table dictionary is empty; otherwise, with the
threshold resolved at the rupture's tectonic region type and magnitude,
it returns exactly the sites within the threshold together with their
distances, and raises FarAwayRupture exactly when no site is within the
threshold. -/
theorem claim_C4 (dic : List (String × TabVal)) (sites : FilteredSiteCollection)
    (r : Rupture) :
    (dic = [] →
      IntegrationDistance.get_closest dic sites r = .ok (sites, sites.sids.map r.dist)) ∧
    (∀ thr : ℚ, dic ≠ [] →
      IntegrationDistance.call dic r.tectonic_region_type (some r.mag) = .ok thr →
      ((∃ sid ∈ sites.sids, r.dist sid ≤ thr) →
        IntegrationDistance.get_closest dic sites r =
          .ok (⟨sites.sids.filter (fun sid => decide (r.dist sid ≤ thr)), sites.complete⟩,
               (sites.sids.map r.dist).filter (fun d => decide (d ≤ thr)))) ∧
      ((∀ sid ∈ sites.sids, ¬ r.dist sid ≤ thr) →
        IntegrationDistance.get_closest dic sites r = .error farAwayRupture)) := by
  constructor
  · intro h; subst h; rfl
  · intro thr hne hcall
    have hie : dic.isEmpty = false := by
      cases dic with
      | nil => exact absurd rfl hne
      | cons a t => rfl
    constructor
    · intro hex
      have hany : (List.map (fun d => decide (d ≤ thr)) (sites.sids.map r.dist)).any id = true := by
        simp only [List.any_eq_true]
        obtain ⟨sid, hmem, hle⟩ := hex
        exact ⟨decide (r.dist sid ≤ thr), List.mem_map_of_mem _ (List.mem_map_of_mem _ hmem),
          by simpa using hle⟩
      have h1 : maskFilter sites.sids
            ((sites.sids.map r.dist).map (fun d => decide (d ≤ thr))) =
          sites.sids.filter (fun sid => decide (r.dist sid ≤ thr)) := by
        rw [List.map_map]
        exact maskFilter_map sites.sids _
      have h2 : maskFilter (sites.sids.map r.dist)
            ((sites.sids.map r.dist).map (fun d => decide (d ≤ thr))) =
          (sites.sids.map r.dist).filter (fun d => decide (d ≤ thr)) :=
        maskFilter_map _ _
      simp only [IntegrationDistance.get_closest, hie, Bool.false_eq_true, if_false, hcall]
      rw [if_pos hany, h1, h2]
    · intro hnone
      have hany : (List.map (fun d => decide (d ≤ thr)) (sites.sids.map r.dist)).any id = false := by
        simp only [List.any_eq_false, List.mem_map, id_eq]
        rintro b ⟨d, ⟨sid, hmem, rfl⟩, rfl⟩
        simpa using hnone sid hmem
      simp only [IntegrationDistance.get_closest, hie, Bool.false_eq_true, if_false, hcall,
        hany, if_false]

/-- Witness for claim C4: the rupture 50 km from site 0 and 500 km from
site 1 keeps exactly site 0 under the 100 km scalar table, and the
rupture 500 km from everything raises FarAwayRupture. -/
theorem claim_C4_witness :
    IntegrationDistance.get_closest dicScalar scW.asFiltered rupW =
      .ok (⟨[0], scW⟩, [50]) ∧
    IntegrationDistance.get_closest dicScalar scW.asFiltered rupFar =
      .error farAwayRupture := by
  constructor
  · have h := ((claim_C4 dicScalar scW.asFiltered rupW).2 100 (by decide) rfl).1
      ⟨0, by decide, by norm_num [rupW]⟩
    have e0 : rupW.dist 0 = 50 := by norm_num [rupW]
    have e1 : rupW.dist 1 = 500 := by norm_num [rupW]
    simpa [scW, SiteCollection.asFiltered, List.filter_cons, e0, e1] using h
  · exact ((claim_C4 dicScalar scW.asFiltered rupFar).2 100 (by decide) rfl).2
      (by intro sid hm; norm_num [rupFar])

theorem callFrom_rtree (sf : SourceFilter) (sc : SiteCollection)
    (sites : FilteredSiteCollection) (q : Source → List Nat)
    (hrt : sf.use_rtree = true) :
    ∀ sources : List Source, (∀ src ∈ sources, sf.rtreeSids sc src = .ok (q src)) →
      sf.callFrom sc sites sources =
        (sources.filterMap fun src =>
          if (q src).length = 0 then none
          else some ({ src with nsites := (q src).length },
                     (⟨q src, sites.complete⟩ : FilteredSiteCollection)),
         none) := by
  intro sources
  induction sources with
  | nil => intro _; rfl
  | cons src rest ih =>
    intro hq
    have hhd := hq src (List.mem_cons_self src rest)
    have htl : ∀ s ∈ rest, sf.rtreeSids sc s = .ok (q s) :=
      fun s hs => hq s (List.mem_cons_of_mem _ hs)
    by_cases h : (q src).length = 0
    · have hstep : sf.step sc sites src = .ok none := by
        simp [SourceFilter.step, hrt, hhd, h]
      simp only [SourceFilter.callFrom, hstep, List.filterMap_cons, h, if_true]
      exact ih htl
    · have hstep : sf.step sc sites src =
          .ok (some ({ src with nsites := (q src).length },
                     (⟨q src, sites.complete⟩ : FilteredSiteCollection))) := by
        simp [SourceFilter.step, hrt, hhd, h]
      simp only [SourceFilter.callFrom, hstep, List.filterMap_cons, h, if_false]
      rw [ih htl]

/-- Claim C3: with index filtering active, __call__ yields pairs in the
input source order; each source is queried with its affected box, the
returned identifiers are sorted ascending, and exactly when the list is
non-empty the source is yielded with nsites set to its length and the
filtered subset built over the complete collection; sources with no
intersecting site produce no output pair at all. -/
theorem claim_C3 (sf : SourceFilter) (sc : SiteCollection) (sources : List Source)
    (sitesArg : Option FilteredSiteCollection) (q : Source → List Nat)
    (hrt : sf.use_rtree = true) (hsc : sf.sitecol = some sc)
    (hq : ∀ src ∈ sources, sf.rtreeSids sc src = .ok (q src)) :
    sf.call sources sitesArg =
      (sources.filterMap fun src =>
        if (q src).length = 0 then none
        else some ({ src with nsites := (q src).length },
          some (⟨q src, (sitesArg.getD sc.asFiltered).complete⟩ : FilteredSiteCollection)),
       none) ∧
    ∀ src ∈ sources, List.Sorted (· ≤ ·) (q src) := by
  constructor
  · simp only [SourceFilter.call, hsc]
    rw [callFrom_rtree sf sc (sitesArg.getD sc.asFiltered) q hrt sources hq]
    simp only [List.map_filterMap, apply_ite]
    rfl
  · intro src hs
    have h := hq src hs
    unfold SourceFilter.rtreeSids at h
    cases hbb : sf.get_affected_box src with
    | error e => rw [hbb] at h; simp at h
    | ok ob =>
      cases ob with
      | none => rw [hbb] at h; simp at h
      | some box =>
        rw [hbb] at h
        simp only [Except.ok.injEq] at h
        rw [← h]
        exact List.sorted_insertionSort _ _

/-- Witness for claim C3: over the two-site collection, the covering
source A is yielded with nsites 2 and the sorted subset [0, 1], while the
far-away source B is skipped entirely. -/
theorem claim_C3_witness :
    sfIdx.call [srcA, srcB] none =
      ([({ srcA with nsites := 2 }, some ⟨[0, 1], scW⟩)], none) ∧
    ∀ src ∈ [srcA, srcB], List.Sorted (· ≤ ·) (qW src) := by
  have hB : ("B" : String) ≠ "A" := by decide
  have hq : ∀ src ∈ [srcA, srcB], sfIdx.rtreeSids scW src = .ok (qW src) := by
    intro src hs
    rcases List.mem_cons.mp hs with h | hs2
    · subst h
      norm_num [sfIdx, srcA, scW, qW, dicScalar, SourceFilter.rtreeSids,
        SourceFilter.get_affected_box, IntegrationDistance.call, getdefault,
        indexIntersection, fixLon, sortNat, List.filterMap_cons, List.filterMap_nil,
        List.insertionSort, List.orderedInsert]
    · have h := List.mem_singleton.mp hs2
      subst h
      norm_num [sfIdx, srcB, scW, qW, dicScalar, SourceFilter.rtreeSids,
        SourceFilter.get_affected_box, IntegrationDistance.call, getdefault,
        indexIntersection, fixLon, sortNat, List.filterMap_cons, List.filterMap_nil, hB]
  have h := claim_C3 sfIdx scW [srcA, srcB] none qW rfl rfl hq
  refine ⟨?_, h.2⟩
  rw [h.1]
  have hne : ([0, 1] : List Nat) ≠ [] := by decide
  norm_num [qW, srcA, srcB, List.filterMap_cons, SiteCollection.asFiltered, scW, hB, hne]

theorem lookup_init (dic : List (String × TabVal)) (k : String) :
    (IntegrationDistance.init dic).lookup k = (dic.lookup k).map sortVal := by
  induction dic with
  | nil => rfl
  | cons kv t ih =>
    simp only [IntegrationDistance.init, List.map_cons, List.lookup] at ih ⊢
    by_cases h : (k == kv.1)
    · simp [h]
    · simp only [h]
      exact ih

theorem getdefault_init (dic : List (String × TabVal)) (k : String) :
    getdefault (IntegrationDistance.init dic) k = (getdefault dic k).map sortVal := by
  unfold getdefault
  rw [lookup_init, lookup_init]
  cases dic.lookup k with
  | some v => rfl
  | none =>
    cases dic.lookup ("default") with
    | some v => rfl
    | none => rfl

theorem pairLe_fst {a b : ℚ × ℚ} (h : pairLe a b) : a.1 ≤ b.1 := by
  rcases h with h | ⟨h, _⟩
  · exact le_of_lt h
  · exact le_of_eq h

theorem sorted_last_max (l : List (ℚ × ℚ)) :
    ∀ (h : l ≠ []), List.Sorted pairLe l → ∀ p ∈ l, p.1 ≤ (l.getLast h).1 := by
  induction l with
  | nil => intro h; exact absurd rfl h
  | cons a t ih =>
    intro h hs p hp
    cases t with
    | nil =>
      have hpa : p = a := by simpa using hp
      subst hpa
      simp [List.getLast]
    | cons b t' =>
      rw [List.getLast_cons (by simp : b :: t' ≠ [])]
      rcases List.mem_cons.mp hp with hpa | hp'
      · subst hpa
        have hlast : (b :: t').getLast (by simp) ∈ b :: t' := List.getLast_mem _
        exact pairLe_fst ((List.sorted_cons.mp hs).1 _ hlast)
      · exact ih (by simp) (List.sorted_cons.mp hs).2 p hp'

/-- Claim C5: getdefault falls back to the distinguished key and raises
KeyError when that is absent too; a scalar value is returned for every
magnitude argument, the omitted one included; on a pair-list value with
the magnitude omitted, the constructed table returns the distance paired
with the largest stored magnitude. -/
theorem claim_C5 (dic : List (String × TabVal)) (trt : String) :
    (∀ v, dic.lookup trt = some v → getdefault dic trt = .ok v) ∧
    (dic.lookup trt = none → ∀ v, dic.lookup ("default") = some v →
      getdefault dic trt = .ok v) ∧
    (dic.lookup trt = none → dic.lookup ("default") = none →
      getdefault dic trt = .error ⟨"KeyError", "default", 0⟩) ∧
    (∀ d, getdefault dic trt = .ok (.scalar d) →
      ∀ mag : Option ℚ, IntegrationDistance.call dic trt mag = .ok d) ∧
    (∀ l, getdefault dic trt = .ok (.pairs l) → l ≠ [] →
      ∃ m d, IntegrationDistance.call (IntegrationDistance.init dic) trt none = .ok d ∧
        (m, d) ∈ l ∧ ∀ p ∈ l, p.1 ≤ m) := by
  refine ⟨?_, ?_, ?_, ?_, ?_⟩
  · intro v hv
    simp only [getdefault, hv]
  · intro h0 v hv
    simp only [getdefault, h0, hv]
  · intro h0 hd
    simp only [getdefault, h0, hd, keyErrorDefault]
  · intro d hres mag
    simp only [IntegrationDistance.call, hres]
  · intro l hres hne
    have h2 : getdefault (IntegrationDistance.init dic) trt = .ok (.pairs (sortPairs l)) := by
      rw [getdefault_init, hres]
      rfl
    have hsne : sortPairs l ≠ [] := by
      intro h0
      have hlen : (sortPairs l).length = l.length := List.length_insertionSort pairLe l
      rw [h0] at hlen
      exact hne (List.length_eq_zero.mp hlen.symm)
    have hlast : (sortPairs l).getLast? = some ((sortPairs l).getLast hsne) :=
      List.getLast?_eq_getLast _ hsne
    refine ⟨((sortPairs l).getLast hsne).1, ((sortPairs l).getLast hsne).2, ?_, ?_, ?_⟩
    · simp only [IntegrationDistance.call, h2, hlast]
    · have hmem : (sortPairs l).getLast hsne ∈ sortPairs l := List.getLast_mem hsne
      exact (List.perm_insertionSort pairLe l).mem_iff.mp hmem
    · intro p hp
      have hp' : p ∈ sortPairs l := (List.perm_insertionSort pairLe l).mem_iff.mpr hp
      exact sorted_last_max (sortPairs l) hsne (List.sorted_insertionSort pairLe l) p hp'

/-- Witness for claim C5: the unsorted raw list [(5, 100), (3, 30)] under
the distinguished key, looked up at an absent region type with the
magnitude omitted, returns the distance of the largest magnitude. -/
theorem claim_C5_witness :
    getdefault dicC5 ("sub") = .ok (TabVal.pairs [(5, 100), (3, 30)]) ∧
    ∃ m d, IntegrationDistance.call (IntegrationDistance.init dicC5) ("sub") none = .ok d ∧
      (m, d) ∈ [((5 : ℚ), (100 : ℚ)), (3, 30)] ∧
      ∀ p ∈ [((5 : ℚ), (100 : ℚ)), (3, 30)], p.1 ≤ m := by
  constructor
  · exact (claim_C5 dicC5 ("sub")).2.1 rfl (TabVal.pairs [(5, 100), (3, 30)]) rfl
  · exact (claim_C5 dicC5 ("sub")).2.2.2.2 [(5, 100), (3, 30)] rfl (by simp)

theorem interpSeg_mono (p q : ℚ × ℚ) (h1 : p.1 < q.1) (h2 : p.2 ≤ q.2)
    {x y : ℚ} (hxy : x ≤ y) : interpSeg p q x ≤ interpSeg p q y := by
  unfold interpSeg
  have hden : 0 < q.1 - p.1 := by linarith
  have hnum : 0 ≤ q.2 - p.2 := by linarith
  have hmul : (q.2 - p.2) * (x - p.1) ≤ (q.2 - p.2) * (y - p.1) :=
    mul_le_mul_of_nonneg_left (by linarith) hnum
  have hdiv := (div_le_div_iff_of_pos_right hden).mpr hmul
  linarith

theorem interpSeg_at_right (p q : ℚ × ℚ) (h : p.1 < q.1) : interpSeg p q q.1 = q.2 := by
  unfold interpSeg
  have hne : q.1 - p.1 ≠ 0 := ne_of_gt (by linarith)
  rw [mul_div_assoc, div_self hne, mul_one]
  ring

theorem interpSeg_at_left (p q : ℚ × ℚ) : interpSeg p q p.1 = p.2 := by
  unfold interpSeg
  simp

theorem lininterp_mono :
    ∀ (l : List (ℚ × ℚ)), l.Chain' (fun a b => a.1 < b.1) →
      l.Chain' (fun a b => a.2 ≤ b.2) → 2 ≤ l.length →
      ∀ m1 m2 : ℚ, m1 ≤ m2 → lininterp l m1 ≤ lininterp l m2 := by
  intro l
  induction l with
  | nil => intro _ _ hlen; simp at hlen
  | cons p t ih =>
    intro hx hy hlen m1 m2 h
    cases t with
    | nil => simp at hlen
    | cons q rest =>
      have hpq1 : p.1 < q.1 := (List.chain'_cons.mp hx).1
      have hpq2 : p.2 ≤ q.2 := (List.chain'_cons.mp hy).1
      have hx' := (List.chain'_cons.mp hx).2
      have hy' := (List.chain'_cons.mp hy).2
      simp only [lininterp]
      by_cases hc2 : m2 ≤ q.1 ∨ rest = []
      · have hc1 : m1 ≤ q.1 ∨ rest = [] := by
          rcases hc2 with h2 | h2
          · exact Or.inl (h.trans h2)
          · exact Or.inr h2
        rw [if_pos hc1, if_pos hc2]
        exact interpSeg_mono p q hpq1 hpq2 h
      · rw [if_neg hc2]
        have hm2 : q.1 < m2 := lt_of_not_le (not_or.mp hc2).1
        have hrest : rest ≠ [] := (not_or.mp hc2).2
        cases rest with
        | nil => exact absurd rfl hrest
        | cons r rest' =>
          have hlen' : 2 ≤ (q :: r :: rest').length := by
            simp [List.length_cons]
          by_cases hc1 : m1 ≤ q.1
          · rw [if_pos (Or.inl hc1)]
            have hqr1 : q.1 < r.1 := (List.chain'_cons.mp hx').1
            calc interpSeg p q m1
                ≤ interpSeg p q q.1 := interpSeg_mono p q hpq1 hpq2 hc1
              _ = q.2 := interpSeg_at_right p q hpq1
              _ = lininterp (q :: r :: rest') q.1 := by
                  simp only [lininterp]
                  rw [if_pos (Or.inl (le_of_lt hqr1)), interpSeg_at_left]
              _ ≤ lininterp (q :: r :: rest') m2 :=
                  ih hx' hy' hlen' q.1 m2 (le_of_lt hm2)
          · rw [if_neg (by push_neg; exact ⟨lt_of_not_le hc1, by simp⟩ :
                ¬(m1 ≤ q.1 ∨ r :: rest' = []))]
            exact ih hx' hy' hlen' m1 m2 h

/-- Claim C6: for a resolved pair-list entry with strictly increasing
magnitudes (the interpolator's precondition) and non-decreasing
distances, the interpolated-and-linearly-extrapolated lookup is
monotonically non-decreasing in the magnitude, for all magnitudes inside
or outside the table range. -/
theorem claim_C6 (dic : List (String × TabVal)) (trt : String) (l : List (ℚ × ℚ))
    (hres : getdefault dic trt = .ok (.pairs l))
    (hx : l.Chain' (fun a b => a.1 < b.1))
    (hy : l.Chain' (fun a b => a.2 ≤ b.2))
    (hlen : 2 ≤ l.length)
    (m1 m2 : ℚ) (h : m1 ≤ m2) :
    ∃ d1 d2, IntegrationDistance.call dic trt (some m1) = .ok d1 ∧
      IntegrationDistance.call dic trt (some m2) = .ok d2 ∧ d1 ≤ d2 := by
  have hnl : ¬(l.length < 2) := not_lt.mpr hlen
  refine ⟨lininterp l m1, lininterp l m2, ?_, ?_, ?_⟩
  · simp only [IntegrationDistance.call, hres, if_neg hnl]
  · simp only [IntegrationDistance.call, hres, if_neg hnl]
  · exact lininterp_mono l hx hy hlen m1 m2 h

/-- Witness for claim C6: the two-point table [(1, 10), (2, 20)] looked
up at an absent region type, compared at the out-of-range magnitudes 0
and 3 (both linearly extrapolated). -/
theorem claim_C6_witness :
    ∃ d1 d2, IntegrationDistance.call dicC6 ("x") (some 0) = .ok d1 ∧
      IntegrationDistance.call dicC6 ("x") (some 3) = .ok d2 ∧ d1 ≤ d2 :=
  claim_C6 dicC6 ("x") [(1, 10), (2, 20)] rfl
    (by norm_num [List.chain'_cons, List.chain'_singleton])
    (by norm_num [List.chain'_cons, List.chain'_singleton])
    (by norm_num) 0 3 (by norm_num)
